import Mathlib

/-!
Verification of the perpetual-futures backtest engine
(`backtest_kline_trajectory.py`): a shallow embedding of the exchange
simulator, volatility monitor, fee-rebate scheduler and price-trajectory
reconstruction, with theorems checking the specified behaviour.

Decimal/float arithmetic of the source is modelled exactly over `ℚ`.
-/

namespace Backtest

/-! ## Calendar arithmetic (for the fee-rebate scheduler)

The source converts Unix timestamps with `pd.to_datetime(ts, unit='s')`
(proleptic Gregorian, UTC) and shifts dates with `pd.DateOffset(months=1)`
(month arithmetic, day-of-month clamped to the target month's length).
We embed this with the standard civil-calendar conversion algorithms. -/

structure DateTime where
  year : Int
  month : Nat
  day : Nat
  hour : Nat
  minute : Nat
  second : Nat
deriving DecidableEq, Repr

/-- Days since 1970-01-01 for a civil date (Gregorian, valid for all years). -/
def daysFromCivil (y : Int) (m d : Nat) : Int :=
  let y' : Int := if m ≤ 2 then y - 1 else y
  let era : Int := Int.fdiv y' 400
  let yoe : Nat := (y' - era * 400).toNat
  let mp : Nat := if 2 < m then m - 3 else m + 9
  let doy : Nat := (153 * mp + 2) / 5 + d - 1
  let doe : Nat := yoe * 365 + yoe / 4 - yoe / 100 + doy
  era * 146097 + (doe : Int) - 719468

/-- Civil date from days since 1970-01-01. -/
def civilFromDays (z : Int) : Int × Nat × Nat :=
  let z' : Int := z + 719468
  let era : Int := Int.fdiv z' 146097
  let doe : Nat := (z' - era * 146097).toNat
  let yoe : Nat := (doe - doe / 1460 + doe / 36524 - doe / 146096) / 365
  let doy : Nat := doe - (365 * yoe + yoe / 4 - yoe / 100)
  let mp : Nat := (5 * doy + 2) / 153
  let d : Nat := doy - (153 * mp + 2) / 5 + 1
  let m : Nat := if mp < 10 then mp + 3 else mp - 9
  let y : Int := (yoe : Int) + era * 400 + (if m ≤ 2 then 1 else 0)
  (y, m, d)

/-- `pd.to_datetime(ts, unit='s')`: timestamp seconds to a UTC date-time. -/
def tsToDateTime (ts : Int) : DateTime :=
  let days : Int := Int.fdiv ts 86400
  let sod : Nat := (ts - days * 86400).toNat
  let ymd := civilFromDays days
  { year := ymd.1, month := ymd.2.1, day := ymd.2.2,
    hour := sod / 3600, minute := sod % 3600 / 60, second := sod % 60 }

/-- Epoch seconds of a date-time; pandas timestamps compare by this value. -/
def DateTime.toEpoch (dt : DateTime) : Int :=
  daysFromCivil dt.year dt.month dt.day * 86400
    + (dt.hour * 3600 + dt.minute * 60 + dt.second : Nat)

def isLeapYear (y : Int) : Bool :=
  y % 4 = 0 && (y % 100 ≠ 0 || y % 400 = 0)

def daysInMonth (y : Int) (m : Nat) : Nat :=
  if m = 2 then (if isLeapYear y then 29 else 28)
  else if m = 4 ∨ m = 6 ∨ m = 9 ∨ m = 11 then 30
  else 31

/-- `dt + pd.DateOffset(months=1)`: next month, day clamped, time kept. -/
def addOneMonth (dt : DateTime) : DateTime :=
  let y : Int := if dt.month = 12 then dt.year + 1 else dt.year
  let m : Nat := if dt.month = 12 then 1 else dt.month + 1
  { dt with year := y, month := m, day := min dt.day (daysInMonth y m) }

/-- `dt - pd.DateOffset(months=1)`: previous month, day clamped, time kept. -/
def subOneMonth (dt : DateTime) : DateTime :=
  let y : Int := if dt.month = 1 then dt.year - 1 else dt.year
  let m : Nat := if dt.month = 1 then 12 else dt.month - 1
  { dt with year := y, month := m, day := min dt.day (daysInMonth y m) }

/-- `dt.replace(day=d, hour=0, minute=0, second=0, microsecond=0)`. -/
def replaceDayMidnight (dt : DateTime) (d : Nat) : DateTime :=
  { year := dt.year, month := dt.month, day := d,
    hour := 0, minute := 0, second := 0 }

/-! ## Exchange simulator data model -/

inductive Side where
  | buy_long
  | sell_short
  | sell_long
  | buy_short
deriving DecidableEq, Repr

/-- A resting order tuple `(price, amount, side)`. -/
structure Order where
  price : ℚ
  amount : ℚ
  side : Side
deriving DecidableEq, Repr

structure Trade where
  timestamp : Int
  side : Side
  amount : ℚ
  price : ℚ
  fee : ℚ
  pnl : ℚ
  leverage : Nat
deriving DecidableEq, Repr

structure LiquidationEvent where
  timestamp : Int
  equity : ℚ
  price : ℚ
deriving DecidableEq, Repr

/-- One row of `ETH_USDC_TIERS`; `threshold = none` is the
`Decimal('Infinity')` bound of the last row. -/
structure Tier where
  threshold : Option ℚ
  maxLeverage : Nat
  mmRate : ℚ
  mmAmount : ℚ
deriving DecidableEq, Repr

/-- `position_value <= threshold` for a tier row. -/
def Tier.coversNotional (t : Tier) (x : ℚ) : Bool :=
  match t.threshold with
  | none => true
  | some b => decide (x ≤ b)

def ETH_USDC_TIERS : List Tier :=
  [⟨some 50000, 125, 0.004, 0⟩,
   ⟨some 500000, 100, 0.005, 50⟩,
   ⟨some 1000000, 75, 0.0065, 800⟩,
   ⟨some 5000000, 50, 0.01, 4300⟩,
   ⟨some 50000000, 20, 0.02, 54300⟩,
   ⟨some 100000000, 10, 0.05, 1554300⟩,
   ⟨some 150000000, 5, 0.1, 6554300⟩,
   ⟨some 300000000, 4, 0.125, 10304300⟩,
   ⟨some 400000000, 3, 0.15, 17804300⟩,
   ⟨some 500000000, 2, 0.25, 57804300⟩,
   ⟨none, 1, 0.5, 182804300⟩]

/-- `FastPerpetualExchange` state. -/
structure Exchange where
  balance : ℚ
  margin_balance : ℚ
  long_position : ℚ
  short_position : ℚ
  long_entry_price : ℚ
  short_entry_price : ℚ
  base_leverage : Nat
  current_leverage : Nat
  current_price : ℚ
  active_buy_orders : List Order
  active_sell_orders : List Order
  trade_history : List Trade
  equity_history : List (Int × ℚ)
  liquidation_events : List LiquidationEvent
  order_id_counter : Nat
  total_fees_paid : ℚ
  use_fee_rebate : Bool
  last_payout_date : Option DateTime
  current_cycle_fees : ℚ
  rebate_payout_day : Nat
  rebate_rate : ℚ
  maker_fee : ℚ
  taker_fee : ℚ
deriving DecidableEq, Repr

def get_unrealized_pnl (ex : Exchange) : ℚ :=
  (if 0 < ex.long_position
    then ex.long_position * (ex.current_price - ex.long_entry_price) else 0)
  + (if 0 < ex.short_position
    then ex.short_position * (ex.short_entry_price - ex.current_price) else 0)

def get_equity (ex : Exchange) : ℚ :=
  ex.balance + get_unrealized_pnl ex

def get_net_position (ex : Exchange) : ℚ :=
  ex.long_position - ex.short_position

/-- Gross notional at the mark price, used for leverage-tier selection. -/
def get_position_value (ex : Exchange) : ℚ :=
  ex.long_position * ex.current_price + ex.short_position * ex.current_price

/-- Net notional at the mark price, used for the liquidation check. -/
def get_net_position_value (ex : Exchange) : ℚ :=
  |get_net_position ex| * ex.current_price

/-- The `for threshold, ... in ETH_USDC_TIERS` scan of
`get_current_leverage_tier`. -/
def tierScan (x : ℚ) : List Tier → Option Tier
  | [] => none
  | t :: ts => if t.coversNotional x then some t else tierScan x ts

def get_current_leverage_tier (ex : Exchange) : Tier :=
  (tierScan (get_position_value ex) ETH_USDC_TIERS).getD
    (ETH_USDC_TIERS.getLastD ⟨none, 1, 0.5, 182804300⟩)

def get_current_max_leverage (ex : Exchange) : Nat :=
  (get_current_leverage_tier ex).maxLeverage

def get_used_margin (ex : Exchange) : ℚ :=
  let effective_leverage := min (get_current_max_leverage ex) ex.base_leverage
  if effective_leverage = 0 then 0
  else (ex.long_position * ex.long_entry_price
        + ex.short_position * ex.short_entry_price) / (effective_leverage : ℚ)

def get_available_margin (ex : Exchange) : ℚ :=
  get_equity ex - get_used_margin ex

/-- The tier scan of `get_maintenance_margin`, with its `Decimal("0")`
fallback. -/
def mmScan (x : ℚ) : List Tier → ℚ
  | [] => 0
  | t :: ts => if t.coversNotional x then x * t.mmRate - t.mmAmount else mmScan x ts

def get_maintenance_margin (ex : Exchange) : ℚ :=
  mmScan (get_net_position_value ex) ETH_USDC_TIERS

def update_current_leverage (ex : Exchange) : Exchange :=
  { ex with current_leverage := min (get_current_max_leverage ex) ex.base_leverage }

/-- `FastPerpetualExchange.process_fee_rebate`. -/
def process_fee_rebate (ex : Exchange) (timestamp : Int) : Exchange :=
  if ex.use_fee_rebate = false then ex
  else if 2147483647 < timestamp then ex
  else
    let current_date := tsToDateTime timestamp
    match ex.last_payout_date with
    | none =>
        let start_date_payout := replaceDayMidnight current_date ex.rebate_payout_day
        if current_date.toEpoch < start_date_payout.toEpoch then
          { ex with last_payout_date := some (subOneMonth start_date_payout) }
        else
          { ex with last_payout_date := some start_date_payout }
    | some last =>
        let next_payout_date := addOneMonth last
        if next_payout_date.toEpoch ≤ current_date.toEpoch then
          if 0 < ex.current_cycle_fees * ex.rebate_rate then
            { ex with
              balance := ex.balance + ex.current_cycle_fees * ex.rebate_rate,
              current_cycle_fees := 0,
              last_payout_date := some next_payout_date }
          else
            { ex with last_payout_date := some next_payout_date }
        else ex

/-- The opening block of `execute_fast_trade`: deduct the maker fee from the
balance, accumulate it, and feed the rebate cycle when enabled. -/
def applyFeeStep (ex : Exchange) (fee : ℚ) (timestamp : Int) : Exchange :=
  let ex1 := { ex with balance := ex.balance - fee,
                       total_fees_paid := ex.total_fees_paid + fee }
  if ex1.use_fee_rebate then
    process_fee_rebate
      { ex1 with current_cycle_fees := ex1.current_cycle_fees + fee } timestamp
  else ex1

/-- The four-sided position block of `execute_fast_trade`; returns the new
state and the realized PnL of the fill. -/
def applyPositionStep (ex2 : Exchange) (side : Side) (amount price : ℚ) :
    Exchange × ℚ :=
  match side with
    | .buy_long =>
        if ex2.long_position = 0 then
          ({ ex2 with long_entry_price := price,
                      long_position := ex2.long_position + amount }, 0)
        else
          ({ ex2 with
              long_position := (ex2.long_position + amount) + amount,
              long_entry_price :=
                (ex2.long_position * ex2.long_entry_price + amount * price)
                  / (ex2.long_position + amount) }, 0)
    | .sell_short =>
        if ex2.short_position = 0 then
          ({ ex2 with short_entry_price := price,
                      short_position := ex2.short_position + amount }, 0)
        else
          ({ ex2 with
              short_position := (ex2.short_position + amount) + amount,
              short_entry_price :=
                (ex2.short_position * ex2.short_entry_price + amount * price)
                  / (ex2.short_position + amount) }, 0)
    | .sell_long =>
        if 0 < ex2.long_position then
          let trade_amount := min amount ex2.long_position
          let pnl := trade_amount * (price - ex2.long_entry_price)
          ({ ex2 with
              balance := ex2.balance + pnl,
              long_position := ex2.long_position - trade_amount,
              long_entry_price :=
                if ex2.long_position - trade_amount = 0 then 0
                else ex2.long_entry_price }, pnl)
        else (ex2, 0)
    | .buy_short =>
        if 0 < ex2.short_position then
          let trade_amount := min amount ex2.short_position
          let pnl := trade_amount * (ex2.short_entry_price - price)
          ({ ex2 with
              balance := ex2.balance + pnl,
              short_position := ex2.short_position - trade_amount,
              short_entry_price :=
                if ex2.short_position - trade_amount = 0 then 0
                else ex2.short_entry_price }, pnl)
        else (ex2, 0)

/-- `FastPerpetualExchange.execute_fast_trade`. -/
def execute_fast_trade (ex : Exchange) (side : Side) (amount price : ℚ)
    (timestamp : Int) : Exchange :=
  let fee := amount * price * ex.maker_fee
  let ex2 := applyFeeStep ex fee timestamp
  let step := applyPositionStep ex2 side amount price
  let ex3 := update_current_leverage step.1
  { ex3 with
    trade_history := ex3.trade_history
      ++ [Trade.mk timestamp side amount price fee step.2 ex3.current_leverage],
    order_id_counter := ex3.order_id_counter + 1 }

/-- `FastPerpetualExchange.fast_order_matching`; returns the state and the
`filled_count`. -/
def fast_order_matching (ex : Exchange) (high low : ℚ) (timestamp : Int) :
    Exchange × Nat :=
  let step1 : Exchange × Nat :=
    if ex.active_buy_orders.isEmpty then (ex, 0)
    else
      let filled := ex.active_buy_orders.filter (fun o => low ≤ o.price)
      let remaining := ex.active_buy_orders.filter (fun o => o.price < low)
      let ex' := filled.foldl
        (fun s o => execute_fast_trade s o.side o.amount o.price timestamp) ex
      ({ ex' with active_buy_orders := remaining }, filled.length)
  let ex1 := step1.1
  let step2 : Exchange × Nat :=
    if ex1.active_sell_orders.isEmpty then (ex1, 0)
    else
      let filled := ex1.active_sell_orders.filter (fun o => o.price ≤ high)
      let remaining := ex1.active_sell_orders.filter (fun o => high < o.price)
      let ex'' := filled.foldl
        (fun s o => execute_fast_trade s o.side o.amount o.price timestamp) ex1
      ({ ex'' with active_sell_orders := remaining }, filled.length)
  (step2.1, step1.2 + step2.2)

/-- The long-side force-close block of `check_and_handle_liquidation`. -/
def liquidateLongStep (ex1 : Exchange) (liquidation_price : ℚ)
    (timestamp : Int) : Exchange :=
  if 0 < ex1.long_position then
    let pnl := ex1.long_position * (liquidation_price - ex1.long_entry_price)
    let fee := ex1.long_position * liquidation_price * ex1.taker_fee
    let exA := { ex1 with balance := ex1.balance + pnl - fee,
                          total_fees_paid := ex1.total_fees_paid + fee }
    let exB :=
      if exA.use_fee_rebate then
        process_fee_rebate
          { exA with current_cycle_fees := exA.current_cycle_fees + fee }
          timestamp
      else exA
    { exB with long_position := 0, long_entry_price := 0 }
  else ex1

/-- The short-side force-close block of `check_and_handle_liquidation`. -/
def liquidateShortStep (ex2 : Exchange) (liquidation_price : ℚ)
    (timestamp : Int) : Exchange :=
  if 0 < ex2.short_position then
    let pnl := ex2.short_position * (ex2.short_entry_price - liquidation_price)
    let fee := ex2.short_position * liquidation_price * ex2.taker_fee
    let exA := { ex2 with balance := ex2.balance + pnl - fee,
                          total_fees_paid := ex2.total_fees_paid + fee }
    let exB :=
      if exA.use_fee_rebate then
        process_fee_rebate
          { exA with current_cycle_fees := exA.current_cycle_fees + fee }
          timestamp
      else exA
    { exB with short_position := 0, short_entry_price := 0 }
  else ex2

/-- `FastPerpetualExchange.check_and_handle_liquidation`; returns the state
and the liquidation flag. -/
def check_and_handle_liquidation (ex : Exchange) (timestamp : Int) :
    Exchange × Bool :=
  if ex.long_position = 0 ∧ ex.short_position = 0 then (ex, false)
  else
    let equity := get_equity ex
    let maintenance_margin := get_maintenance_margin ex
    if equity ≤ maintenance_margin ∧ 0 < equity then
      let liquidation_price := ex.current_price
      let ex1 := { ex with
        liquidation_events := ex.liquidation_events
          ++ [LiquidationEvent.mk timestamp equity liquidation_price],
        active_buy_orders := [],
        active_sell_orders := [] }
      let ex2 := liquidateLongStep ex1 liquidation_price timestamp
      let ex3 := liquidateShortStep ex2 liquidation_price timestamp
      ({ ex3 with balance := 0 }, true)
    else (ex, false)

/-! ## Price-trajectory reconstruction -/

/-- `get_price_trajectory_vectorized(o, h, l, c, prev_close)`:
5-point intrabar path `(price, high_since_open, low_since_open)`. -/
def get_price_trajectory_vectorized (o h l c prev_close : ℚ) :
    List (ℚ × ℚ × ℚ) :=
  if o ≤ c then
    [(prev_close, prev_close, prev_close), (o, o, o), (l, o, l),
     (h, h, l), (c, h, l)]
  else
    [(prev_close, prev_close, prev_close), (o, o, o), (h, h, o),
     (l, h, l), (c, h, l)]

/-! ## Spec-side formulations (written from the spec's words, to be compared
with the code-side definitions above) -/

/-- The `(mmRate, mmFixedSubtrahend)` pair of the first tier, scanned in
ascending order of notional bound, whose bound covers the notional. -/
def mmTierSpec (x : ℚ) : ℚ × ℚ :=
  if x ≤ 50000 then (0.004, 0)
  else if x ≤ 500000 then (0.005, 50)
  else if x ≤ 1000000 then (0.0065, 800)
  else if x ≤ 5000000 then (0.01, 4300)
  else if x ≤ 50000000 then (0.02, 54300)
  else if x ≤ 100000000 then (0.05, 1554300)
  else if x ≤ 150000000 then (0.1, 6554300)
  else if x ≤ 300000000 then (0.125, 10304300)
  else if x ≤ 400000000 then (0.15, 17804300)
  else if x ≤ 500000000 then (0.25, 57804300)
  else (0.5, 182804300)

/-- The max leverage of the first tier, scanned in ascending order of
notional bound, whose bound covers the notional. -/
def maxLeverageSpec (x : ℚ) : Nat :=
  if x ≤ 50000 then 125
  else if x ≤ 500000 then 100
  else if x ≤ 1000000 then 75
  else if x ≤ 5000000 then 50
  else if x ≤ 50000000 then 20
  else if x ≤ 100000000 then 10
  else if x ≤ 150000000 then 5
  else if x ≤ 300000000 then 4
  else if x ≤ 400000000 then 3
  else if x ≤ 500000000 then 2
  else 1

/-- The realized PnL the spec assigns to a fill: zero for opening sides,
`min(qty, held)·(price−entry)` for `sell_long`, and
`min(qty, held)·(entry−price)` for `buy_short`. -/
def realizedPnlSpec (ex : Exchange) (side : Side) (amount price : ℚ) : ℚ :=
  match side with
  | .buy_long => 0
  | .sell_short => 0
  | .sell_long => min amount ex.long_position * (price - ex.long_entry_price)
  | .buy_short => min amount ex.short_position * (ex.short_entry_price - price)

/-- The `(side, quantity, price)` content of a trade record. -/
def tradeKey (t : Trade) : Side × ℚ × ℚ := (t.side, t.amount, t.price)

/-- The `(side, quantity, price)` content of a resting order. -/
def orderKey (o : Order) : Side × ℚ × ℚ := (o.side, o.amount, o.price)

/-- `FastPerpetualExchange(700)` under the module configuration
(`leverage=125`, `maker_fee=0`, `taker_fee=0.0005`, rebate disabled,
`rebate_payout_day=19`, `rebate_rate=0.30`). -/
def initialExchange : Exchange :=
  { balance := 700, margin_balance := 700,
    long_position := 0, short_position := 0,
    long_entry_price := 0, short_entry_price := 0,
    base_leverage := 125, current_leverage := 125, current_price := 0,
    active_buy_orders := [], active_sell_orders := [],
    trade_history := [], equity_history := [], liquidation_events := [],
    order_id_counter := 1, total_fees_paid := 0,
    use_fee_rebate := false, last_payout_date := none,
    current_cycle_fees := 0, rebate_payout_day := 19, rebate_rate := 0.30,
    maker_fee := 0, taker_fee := 0.0005 }

/-- A state holding 1 long contract entered at 100 with mark price 200. -/
def markVsEntryState : Exchange :=
  { initialExchange with
    long_position := 1, long_entry_price := 100, current_price := 200 }

/-- A rebate-enabled state with 100 of cycle fees and payout anchor
2021-01-19; the timestamp 1614556800 is 2021-03-01 00:00:00 UTC, past the
next payout date 2021-02-19. -/
def rebateCrossingState : Exchange :=
  { initialExchange with
    use_fee_rebate := true, current_cycle_fees := 100,
    last_payout_date := some (DateTime.mk 2021 1 19 0 0 0) }

/-- A state holding 2 long contracts entered at 50. -/
def partialCloseState : Exchange :=
  { initialExchange with long_position := 2, long_entry_price := 50 }

/-- A state in the liquidation zone: 1 long contract at entry 100, mark
price 100, balance 0.2, so equity 0.2 and maintenance margin 0.4. -/
def liquidationZoneState : Exchange :=
  { initialExchange with
    long_position := 1, long_entry_price := 100, current_price := 100,
    balance := 1/5,
    active_buy_orders := [Order.mk 90 1 Side.buy_long],
    active_sell_orders := [Order.mk 110 1 Side.sell_short] }

/-! ## Volatility monitor -/

/-- One `(timestamp, high, low, close)` entry of the price history. -/
structure PricePoint where
  ts : Int
  high : ℚ
  low : ℚ
  close : ℚ
deriving DecidableEq, Repr

structure VolatilityMonitor where
  atr_period : Nat
  price_history : List PricePoint
  atr_values : List ℚ
deriving DecidableEq, Repr

/-- True range of `current` against `previous`:
`max(high−low, |high−prevClose|, |low−prevClose|)`. -/
def trueRange (previous current : PricePoint) : ℚ :=
  max (current.high - current.low)
    (max |current.high - previous.close| |current.low - previous.close|)

/-- The `for i in range(1, len(history))` loop of `_calculate_atr`. -/
def trueRangesAux : List PricePoint → List ℚ
  | p :: q :: rest => trueRange p q :: trueRangesAux (q :: rest)
  | _ => []

/-- `VolatilityMonitor._calculate_atr`. -/
def calculate_atr (vm : VolatilityMonitor) : VolatilityMonitor :=
  if vm.price_history.length < 2 then vm
  else
    let trs := trueRangesAux vm.price_history
    if trs.isEmpty then vm
    else
      let atr := trs.sum / (trs.length : ℚ)
      let vals := vm.atr_values ++ [atr]
      { vm with atr_values := if 100 < vals.length then vals.tail else vals }

/-- `VolatilityMonitor.update_price`. -/
def update_price (vm : VolatilityMonitor) (t : Int) (h l c : ℚ) :
    VolatilityMonitor :=
  let hist0 := vm.price_history ++ [⟨t, h, l, c⟩]
  let hist := if vm.atr_period + 1 < hist0.length then hist0.tail else hist0
  let vm' := { vm with price_history := hist }
  if 2 ≤ hist.length then calculate_atr vm' else vm'

/-- The ATR value the spec describes: the unweighted average, over adjacent
history pairs, of the true range. -/
def atrSpec (hist : List PricePoint) : ℚ :=
  (List.zipWith trueRange hist hist.tail).sum
    / ((List.zipWith trueRange hist hist.tail).length : ℚ)

end Backtest

namespace Backtest

theorem trueRangesAux_eq_zipWith :
    ∀ l : List PricePoint, trueRangesAux l = List.zipWith trueRange l l.tail
  | [] => rfl
  | [_] => rfl
  | p :: q :: rest => by
      simpa [trueRangesAux, List.zipWith] using trueRangesAux_eq_zipWith (q :: rest)

theorem trueRangesAux_ne_nil (l : List PricePoint) (h2 : 2 ≤ l.length) :
    trueRangesAux l ≠ [] := by
  cases l with
  | nil => simp at h2
  | cons p t =>
    cases t with
    | nil => simp at h2
    | cons q r => simp [trueRangesAux]

theorem getLast?_tail_concat (xs : List ℚ) (a : ℚ) (hxs : xs ≠ []) :
    (xs ++ [a]).tail.getLast? = some a := by
  cases xs with
  | nil => exact absurd rfl hxs
  | cons y ys => simp

theorem calculate_atr_spec (vm : VolatilityMonitor)
    (h2 : 2 ≤ vm.price_history.length) (hatr : vm.atr_values.length ≤ 100) :
    (calculate_atr vm).price_history = vm.price_history ∧
    (calculate_atr vm).atr_period = vm.atr_period ∧
    (calculate_atr vm).atr_values.length ≤ 100 ∧
    (calculate_atr vm).atr_values.getLast? = some (atrSpec vm.price_history) := by
  have hne := trueRangesAux_ne_nil vm.price_history h2
  simp only [calculate_atr]
  rw [if_neg (by omega), if_neg (by simpa using hne)]
  refine ⟨rfl, rfl, ?_, ?_⟩
  · split_ifs with hcap
    · simp only [List.length_tail, List.length_append, List.length_singleton]
      omega
    · simp only [List.length_append, List.length_singleton] at hcap ⊢
      omega
  · rw [atrSpec, ← trueRangesAux_eq_zipWith]
    split_ifs with hcap
    · refine getLast?_tail_concat _ _ ?_
      intro hemp
      rw [hemp] at hcap
      simp at hcap
    · simp

/-- C10: after every `update_price` call the price history holds at most
`period+1` entries with the oldest evicted first, the ATR-value history stays
capped at 100, and whenever the history holds at least two entries the newly
appended ATR value is the unweighted average over adjacent history pairs of
the true range `max(high−low, |high−prevClose|, |low−prevClose|)`. -/
theorem update_price_spec (vm : VolatilityMonitor) (t : Int) (h l c : ℚ)
    (hlen : vm.price_history.length ≤ vm.atr_period + 1)
    (hatr : vm.atr_values.length ≤ 100) :
    (update_price vm t h l c).price_history.length ≤ vm.atr_period + 1 ∧
    (update_price vm t h l c).price_history =
      (if (vm.price_history ++ [PricePoint.mk t h l c]).length ≤ vm.atr_period + 1
        then vm.price_history ++ [PricePoint.mk t h l c]
        else (vm.price_history ++ [PricePoint.mk t h l c]).tail) ∧
    (update_price vm t h l c).atr_values.length ≤ 100 ∧
    (2 ≤ (update_price vm t h l c).price_history.length →
      (update_price vm t h l c).atr_values.getLast? =
        some (atrSpec (update_price vm t h l c).price_history)) := by
  have hlen0 : (vm.price_history ++ [PricePoint.mk t h l c]).length
      = vm.price_history.length + 1 := by simp
  have htl : ((vm.price_history ++ [PricePoint.mk t h l c]).tail).length
      = vm.price_history.length := by
    simp [List.length_tail]
  by_cases hev : vm.atr_period + 1 < (vm.price_history ++ [PricePoint.mk t h l c]).length
  · by_cases h2 : 2 ≤ ((vm.price_history ++ [PricePoint.mk t h l c]).tail).length
    · simp only [update_price, if_pos hev, if_pos h2]
      obtain ⟨e1, -, e3, e4⟩ := calculate_atr_spec
        { vm with price_history := (vm.price_history ++ [PricePoint.mk t h l c]).tail }
        h2 hatr
      have e1' : (calculate_atr
          { vm with price_history := (vm.price_history ++ [PricePoint.mk t h l c]).tail
            }).price_history = (vm.price_history ++ [PricePoint.mk t h l c]).tail := e1
      rw [e1']
      exact ⟨by omega, by rw [if_neg (by omega)], e3, fun _ => e4⟩
    · simp only [update_price, if_pos hev, if_neg h2]
      refine ⟨?_, ?_, hatr, fun hc => absurd hc h2⟩
      · show ((vm.price_history ++ [PricePoint.mk t h l c]).tail).length ≤ vm.atr_period + 1
        omega
      · show (vm.price_history ++ [PricePoint.mk t h l c]).tail = _
        rw [if_neg (by omega)]
  · by_cases h2 : 2 ≤ (vm.price_history ++ [PricePoint.mk t h l c]).length
    · simp only [update_price, if_neg hev, if_pos h2]
      obtain ⟨e1, -, e3, e4⟩ := calculate_atr_spec
        { vm with price_history := vm.price_history ++ [PricePoint.mk t h l c] }
        h2 hatr
      have e1' : (calculate_atr
          { vm with price_history := vm.price_history ++ [PricePoint.mk t h l c]
            }).price_history = vm.price_history ++ [PricePoint.mk t h l c] := e1
      rw [e1']
      exact ⟨by omega, by rw [if_pos (by omega)], e3, fun _ => e4⟩
    · simp only [update_price, if_neg hev, if_neg h2]
      refine ⟨?_, ?_, hatr, fun hc => absurd hc h2⟩
      · show (vm.price_history ++ [PricePoint.mk t h l c]).length ≤ vm.atr_period + 1
        omega
      · show vm.price_history ++ [PricePoint.mk t h l c] = _
        rw [if_pos (by omega)]

/-- C10 witness: a concrete update on a monitor holding one entry. -/
theorem update_price_spec_witness :
    (update_price ⟨2, [⟨0, 10, 5, 7⟩], []⟩ 1 12 6 11).price_history.length ≤ 2 + 1 :=
  (update_price_spec ⟨2, [⟨0, 10, 5, 7⟩], []⟩ 1 12 6 11 (by decide) (by decide)).1

/-- C8: the trajectory has exactly 5 samples and its price sequence is
`[prevClose, open, low, high, close]` for a bullish candle (close ≥ open)
and `[prevClose, open, high, low, close]` for a bearish one. -/
theorem trajectory_shape (o h l c pc : ℚ) :
    (get_price_trajectory_vectorized o h l c pc).length = 5 ∧
    (get_price_trajectory_vectorized o h l c pc).map (fun s => s.1) =
      (if o ≤ c then [pc, o, l, h, c] else [pc, o, h, l, c]) := by
  unfold get_price_trajectory_vectorized
  by_cases hb : o ≤ c <;> simp [hb]

set_option maxHeartbeats 1000000 in
theorem mmScan_tiers (x : ℚ) :
    mmScan x ETH_USDC_TIERS = x * (mmTierSpec x).1 - (mmTierSpec x).2 := by
  simp only [ETH_USDC_TIERS, mmScan, Tier.coversNotional, decide_eq_true_eq, mmTierSpec]
  split_ifs <;> rfl

/-- C5: the maintenance margin is `netNotional·mmRate − mmFixedSubtrahend`
for the first tier (ascending by bound) whose bound covers the net notional
`|longQty − shortQty|·markPrice`, with no clamping at zero. -/
theorem maintenance_margin_spec (ex : Exchange) :
    get_maintenance_margin ex =
      |ex.long_position - ex.short_position| * ex.current_price
          * (mmTierSpec (|ex.long_position - ex.short_position| * ex.current_price)).1
        - (mmTierSpec (|ex.long_position - ex.short_position| * ex.current_price)).2 := by
  unfold get_maintenance_margin get_net_position_value get_net_position
  exact mmScan_tiers _

set_option maxHeartbeats 1000000 in
theorem tierScan_maxLev (x : ℚ) :
    ((tierScan x ETH_USDC_TIERS).getD
        (ETH_USDC_TIERS.getLastD ⟨none, 1, 0.5, 182804300⟩)).maxLeverage
      = maxLeverageSpec x := by
  simp only [ETH_USDC_TIERS, tierScan, Tier.coversNotional, decide_eq_true_eq, maxLeverageSpec]
  split_ifs <;> rfl

/-- C6 counterexample: with 1 long contract entered at 100 and mark price
200, `get_used_margin` returns 100/125 = 0.8, not the claimed gross
mark-price notional over effective leverage 200/125 = 1.6. -/
theorem used_margin_counterexample :
    ¬ (get_used_margin markVsEntryState =
        (markVsEntryState.long_position + markVsEntryState.short_position)
            * markVsEntryState.current_price
          / (min (maxLeverageSpec
                ((markVsEntryState.long_position + markVsEntryState.short_position)
                  * markVsEntryState.current_price))
              markVsEntryState.base_leverage : ℚ)) := by
  have h1 : get_used_margin markVsEntryState = 4/5 := by
    norm_num [get_used_margin, get_current_max_leverage, get_current_leverage_tier,
      get_position_value, tierScan, ETH_USDC_TIERS, Tier.coversNotional,
      markVsEntryState, initialExchange]
  have h2 : maxLeverageSpec ((markVsEntryState.long_position
      + markVsEntryState.short_position) * markVsEntryState.current_price) = 125 := by
    norm_num [maxLeverageSpec, markVsEntryState, initialExchange]
  rw [h1, h2]
  norm_num [markVsEntryState, initialExchange]

/-- C6 amended: `get_used_margin` equals the entry-price notional
`longQty·longEntry + shortQty·shortEntry` divided by the effective leverage
`min(max leverage of the tier selected by the gross mark-price notional
`(longQty+shortQty)·markPrice`, configured leverage)` (0 if that leverage
is 0). -/
theorem used_margin_entry_notional (ex : Exchange) :
    get_used_margin ex =
      if min (maxLeverageSpec ((ex.long_position + ex.short_position)
            * ex.current_price)) ex.base_leverage = 0 then 0
      else (ex.long_position * ex.long_entry_price
            + ex.short_position * ex.short_entry_price)
          / (min (maxLeverageSpec ((ex.long_position + ex.short_position)
              * ex.current_price)) ex.base_leverage : ℚ) := by
  simp only [get_used_margin, get_current_max_leverage, get_current_leverage_tier,
    get_position_value]
  rw [show ex.long_position * ex.current_price + ex.short_position * ex.current_price
      = (ex.long_position + ex.short_position) * ex.current_price from by ring]
  rw [tierScan_maxLev]
  simp [Nat.cast_min]

/-- `process_fee_rebate` only ever touches the balance, the cycle
accumulator and the payout anchor. -/
theorem process_fee_rebate_core (ex : Exchange) (ts : Int) :
    (process_fee_rebate ex ts).margin_balance = ex.margin_balance ∧
    (process_fee_rebate ex ts).long_position = ex.long_position ∧
    (process_fee_rebate ex ts).short_position = ex.short_position ∧
    (process_fee_rebate ex ts).long_entry_price = ex.long_entry_price ∧
    (process_fee_rebate ex ts).short_entry_price = ex.short_entry_price ∧
    (process_fee_rebate ex ts).base_leverage = ex.base_leverage ∧
    (process_fee_rebate ex ts).current_leverage = ex.current_leverage ∧
    (process_fee_rebate ex ts).current_price = ex.current_price ∧
    (process_fee_rebate ex ts).active_buy_orders = ex.active_buy_orders ∧
    (process_fee_rebate ex ts).active_sell_orders = ex.active_sell_orders ∧
    (process_fee_rebate ex ts).trade_history = ex.trade_history ∧
    (process_fee_rebate ex ts).equity_history = ex.equity_history ∧
    (process_fee_rebate ex ts).liquidation_events = ex.liquidation_events ∧
    (process_fee_rebate ex ts).order_id_counter = ex.order_id_counter ∧
    (process_fee_rebate ex ts).total_fees_paid = ex.total_fees_paid ∧
    (process_fee_rebate ex ts).use_fee_rebate = ex.use_fee_rebate ∧
    (process_fee_rebate ex ts).rebate_payout_day = ex.rebate_payout_day ∧
    (process_fee_rebate ex ts).rebate_rate = ex.rebate_rate ∧
    (process_fee_rebate ex ts).maker_fee = ex.maker_fee ∧
    (process_fee_rebate ex ts).taker_fee = ex.taker_fee := by
  unfold process_fee_rebate
  repeat' split
  any_goals simp
  all_goals (split_ifs <;> simp)

/-- `applyFeeStep` leaves positions, entries, orders and histories alone and
adds the fee to the cumulative fee total. -/
theorem applyFeeStep_core (ex : Exchange) (fee : ℚ) (ts : Int) :
    (applyFeeStep ex fee ts).long_position = ex.long_position ∧
    (applyFeeStep ex fee ts).short_position = ex.short_position ∧
    (applyFeeStep ex fee ts).long_entry_price = ex.long_entry_price ∧
    (applyFeeStep ex fee ts).short_entry_price = ex.short_entry_price ∧
    (applyFeeStep ex fee ts).active_buy_orders = ex.active_buy_orders ∧
    (applyFeeStep ex fee ts).active_sell_orders = ex.active_sell_orders ∧
    (applyFeeStep ex fee ts).trade_history = ex.trade_history ∧
    (applyFeeStep ex fee ts).liquidation_events = ex.liquidation_events ∧
    (applyFeeStep ex fee ts).total_fees_paid = ex.total_fees_paid + fee ∧
    (applyFeeStep ex fee ts).use_fee_rebate = ex.use_fee_rebate ∧
    (applyFeeStep ex fee ts).maker_fee = ex.maker_fee ∧
    (applyFeeStep ex fee ts).taker_fee = ex.taker_fee ∧
    (applyFeeStep ex fee ts).current_price = ex.current_price ∧
    (applyFeeStep ex fee ts).base_leverage = ex.base_leverage := by
  simp only [applyFeeStep]
  split
  · have h := process_fee_rebate_core
      { ex with balance := ex.balance - fee,
                total_fees_paid := ex.total_fees_paid + fee,
                current_cycle_fees := ex.current_cycle_fees + fee } ts
    simp_all
  · simp

/-- With the fee rebate disabled, `applyFeeStep` is exactly the fee
deduction. -/
theorem applyFeeStep_noRebate (ex : Exchange) (fee : ℚ) (ts : Int)
    (hreb : ex.use_fee_rebate = false) :
    applyFeeStep ex fee ts =
      { ex with balance := ex.balance - fee,
                total_fees_paid := ex.total_fees_paid + fee } := by
  simp only [applyFeeStep]
  rw [if_neg]
  simp [hreb]

theorem applyPositionStep_buyLong (ex : Exchange) (amount price : ℚ) :
    applyPositionStep ex .buy_long amount price =
      (if ex.long_position = 0
        then ({ ex with long_entry_price := price,
                        long_position := ex.long_position + amount }, 0)
        else ({ ex with
                 long_position := ex.long_position + amount + amount,
                 long_entry_price :=
                   (ex.long_position * ex.long_entry_price + amount * price)
                     / (ex.long_position + amount) }, 0)) := rfl

theorem applyPositionStep_sellShort (ex : Exchange) (amount price : ℚ) :
    applyPositionStep ex .sell_short amount price =
      (if ex.short_position = 0
        then ({ ex with short_entry_price := price,
                        short_position := ex.short_position + amount }, 0)
        else ({ ex with
                 short_position := ex.short_position + amount + amount,
                 short_entry_price :=
                   (ex.short_position * ex.short_entry_price + amount * price)
                     / (ex.short_position + amount) }, 0)) := rfl

theorem applyPositionStep_sellLong (ex : Exchange) (amount price : ℚ) :
    applyPositionStep ex .sell_long amount price =
      (if 0 < ex.long_position then
        ({ ex with
            balance := ex.balance
              + min amount ex.long_position * (price - ex.long_entry_price),
            long_position := ex.long_position - min amount ex.long_position,
            long_entry_price :=
              if ex.long_position - min amount ex.long_position = 0 then 0
              else ex.long_entry_price },
         min amount ex.long_position * (price - ex.long_entry_price))
       else (ex, 0)) := rfl

theorem applyPositionStep_buyShort (ex : Exchange) (amount price : ℚ) :
    applyPositionStep ex .buy_short amount price =
      (if 0 < ex.short_position then
        ({ ex with
            balance := ex.balance
              + min amount ex.short_position * (ex.short_entry_price - price),
            short_position := ex.short_position - min amount ex.short_position,
            short_entry_price :=
              if ex.short_position - min amount ex.short_position = 0 then 0
              else ex.short_entry_price },
         min amount ex.short_position * (ex.short_entry_price - price))
       else (ex, 0)) := rfl

/-- How a `buy_long` fill changes the long position and entry price. -/
theorem execute_buyLong_positions (ex : Exchange) (amount price : ℚ) (ts : Int) :
    (execute_fast_trade ex .buy_long amount price ts).long_position =
      (if ex.long_position = 0 then ex.long_position + amount
       else ex.long_position + amount + amount) ∧
    (execute_fast_trade ex .buy_long amount price ts).long_entry_price =
      (if ex.long_position = 0 then price
       else (ex.long_position * ex.long_entry_price + amount * price)
              / (ex.long_position + amount)) ∧
    (execute_fast_trade ex .buy_long amount price ts).short_position
      = ex.short_position ∧
    (execute_fast_trade ex .buy_long amount price ts).short_entry_price
      = ex.short_entry_price := by
  obtain ⟨hlp, hsp, hle, hse, -, -, -, -, -, -, -, -, -, -⟩ :=
    applyFeeStep_core ex (amount * price * ex.maker_fee) ts
  by_cases h0 : ex.long_position = 0 <;>
    simp [execute_fast_trade, update_current_leverage, applyPositionStep_buyLong,
      hlp, hsp, hle, hse, h0]

/-- How a `sell_short` fill changes the short position and entry price. -/
theorem execute_sellShort_positions (ex : Exchange) (amount price : ℚ) (ts : Int) :
    (execute_fast_trade ex .sell_short amount price ts).short_position =
      (if ex.short_position = 0 then ex.short_position + amount
       else ex.short_position + amount + amount) ∧
    (execute_fast_trade ex .sell_short amount price ts).short_entry_price =
      (if ex.short_position = 0 then price
       else (ex.short_position * ex.short_entry_price + amount * price)
              / (ex.short_position + amount)) ∧
    (execute_fast_trade ex .sell_short amount price ts).long_position
      = ex.long_position ∧
    (execute_fast_trade ex .sell_short amount price ts).long_entry_price
      = ex.long_entry_price := by
  obtain ⟨hlp, hsp, hle, hse, -, -, -, -, -, -, -, -, -, -⟩ :=
    applyFeeStep_core ex (amount * price * ex.maker_fee) ts
  by_cases h0 : ex.short_position = 0 <;>
    simp [execute_fast_trade, update_current_leverage, applyPositionStep_sellShort,
      hlp, hsp, hle, hse, h0]

/-- C2: the claim fails on the code — a `buy_long` fill of quantity 1 on an
existing long position of 1 raises the position to 3, not 2, because the
increase branch adds the fill quantity twice. -/
theorem buyLong_double_increment :
    (execute_fast_trade
        { initialExchange with long_position := 1, long_entry_price := 100 }
        Side.buy_long 1 100 0).long_position = 3 ∧ (3 : ℚ) ≠ 1 + 1 := by
  obtain ⟨h, -, -, -⟩ := execute_buyLong_positions
    { initialExchange with long_position := 1, long_entry_price := 100 } 1 100 0
  rw [h]
  norm_num

/-- C3 counterexample: with the fee rebate enabled and a fill landing past
the payout date, the rebate credit also moves the balance, so
`balance_after = balance_before − fee + realizedPnL` fails as stated. -/
theorem trade_balance_rebate_counterexample :
    ¬ ((execute_fast_trade rebateCrossingState Side.buy_long 1 10 1614556800).balance
        = rebateCrossingState.balance - 1 * 10 * rebateCrossingState.maker_fee
          + realizedPnlSpec rebateCrossingState Side.buy_long 1 10) := by
  have hdate : (addOneMonth (DateTime.mk 2021 1 19 0 0 0)).toEpoch
      ≤ (tsToDateTime 1614556800).toEpoch := by decide
  norm_num [execute_fast_trade, applyFeeStep, applyPositionStep,
    process_fee_rebate, update_current_leverage, realizedPnlSpec,
    rebateCrossingState, initialExchange, hdate]

/-- C3 amended: with the fee rebate disabled (the default configuration) and
nonnegative quantity and held positions,
`balance_after = balance_before − qty·price·makerFee + realizedPnL`, with
realized PnL zero for opening sides, `min(qty, held)·(price−entry)` for
`sell_long`, `min(qty, held)·(entry−price)` for `buy_short`; the close
quantity is clipped to the held quantity and a bare fee deduction happens
when nothing is held. With the rebate enabled a payout crossing can credit
the rebate on top. -/
theorem trade_balance_equation (ex : Exchange) (side : Side)
    (amount price : ℚ) (ts : Int)
    (hreb : ex.use_fee_rebate = false) (hamt : 0 ≤ amount)
    (hl : 0 ≤ ex.long_position) (hs : 0 ≤ ex.short_position) :
    (execute_fast_trade ex side amount price ts).balance
      = ex.balance - amount * price * ex.maker_fee
        + realizedPnlSpec ex side amount price := by
  have hfs := applyFeeStep_noRebate ex (amount * price * ex.maker_fee) ts hreb
  cases side
  case buy_long =>
    simp only [execute_fast_trade, hfs, update_current_leverage,
      applyPositionStep_buyLong]
    split_ifs <;> simp [realizedPnlSpec]
  case sell_short =>
    simp only [execute_fast_trade, hfs, update_current_leverage,
      applyPositionStep_sellShort]
    split_ifs <;> simp [realizedPnlSpec]
  case sell_long =>
    simp only [execute_fast_trade, hfs, update_current_leverage,
      applyPositionStep_sellLong]
    split_ifs with h h2
    · simp [realizedPnlSpec]
      try ring
    · simp [realizedPnlSpec]
      try ring
    · have hzero : ex.long_position = 0 := le_antisymm (not_lt.1 h) hl
      simp [realizedPnlSpec, hzero, min_eq_right hamt]
  case buy_short =>
    simp only [execute_fast_trade, hfs, update_current_leverage,
      applyPositionStep_buyShort]
    split_ifs with h h2
    · simp [realizedPnlSpec]
      try ring
    · simp [realizedPnlSpec]
      try ring
    · have hzero : ex.short_position = 0 := le_antisymm (not_lt.1 h) hs
      simp [realizedPnlSpec, hzero, min_eq_right hamt]

/-- C3 witness: a partial close of 1 of 2 long contracts held at entry 50,
filled at 60, with the default (rebate-off) configuration. -/
theorem trade_balance_equation_witness :
    (execute_fast_trade partialCloseState Side.sell_long 1 60 0).balance
      = partialCloseState.balance
        - 1 * 60 * partialCloseState.maker_fee
        + realizedPnlSpec partialCloseState Side.sell_long 1 60 :=
  trade_balance_equation partialCloseState Side.sell_long 1 60 0 rfl
    (by norm_num)
    (by norm_num [partialCloseState, initialExchange])
    (by norm_num [partialCloseState, initialExchange])

/-- C4: after two same-side opening fills `(q1, p1)`, `(q2, p2)` from a flat
side, the recorded entry price is the quantity-weighted average
`(q1·p1 + q2·p2)/(q1 + q2)`, exactly (`ℚ` models the exact decimal
arithmetic); this holds for the long side via `buy_long` and the short side
via `sell_short`. -/
theorem weighted_entry_two_fills (ex : Exchange) (q1 p1 q2 p2 : ℚ)
    (ts1 ts2 : Int) (hl : ex.long_position = 0) (hs : ex.short_position = 0)
    (hq1 : 0 < q1) (hq2 : 0 < q2) :
    (execute_fast_trade (execute_fast_trade ex .buy_long q1 p1 ts1)
        .buy_long q2 p2 ts2).long_entry_price
      = (q1 * p1 + q2 * p2) / (q1 + q2) ∧
    (execute_fast_trade (execute_fast_trade ex .sell_short q1 p1 ts1)
        .sell_short q2 p2 ts2).short_entry_price
      = (q1 * p1 + q2 * p2) / (q1 + q2) := by
  constructor
  · obtain ⟨e1p, e1e, -, -⟩ := execute_buyLong_positions ex q1 p1 ts1
    rw [if_pos hl] at e1p e1e
    rw [hl, zero_add] at e1p
    obtain ⟨-, e2e, -, -⟩ := execute_buyLong_positions
      (execute_fast_trade ex .buy_long q1 p1 ts1) q2 p2 ts2
    rw [e1p, e1e, if_neg hq1.ne'] at e2e
    exact e2e
  · obtain ⟨e1p, e1e, -, -⟩ := execute_sellShort_positions ex q1 p1 ts1
    rw [if_pos hs] at e1p e1e
    rw [hs, zero_add] at e1p
    obtain ⟨-, e2e, -, -⟩ := execute_sellShort_positions
      (execute_fast_trade ex .sell_short q1 p1 ts1) q2 p2 ts2
    rw [e1p, e1e, if_neg hq1.ne'] at e2e
    exact e2e

/-- C4 witness: fills (1, 100) then (1, 200) from flat give entry 150 on
both sides. -/
theorem weighted_entry_two_fills_witness :
    (execute_fast_trade (execute_fast_trade initialExchange .buy_long 1 100 0)
        .buy_long 1 200 0).long_entry_price = (1 * 100 + 1 * 200) / (1 + 1) ∧
    (execute_fast_trade (execute_fast_trade initialExchange .sell_short 1 100 0)
        .sell_short 1 200 0).short_entry_price = (1 * 100 + 1 * 200) / (1 + 1) :=
  weighted_entry_two_fills initialExchange 1 100 1 200 0 0 rfl rfl
    (by norm_num) (by norm_num)

/-- A fill leaves the resting order lists untouched. -/
theorem applyPositionStep_core (ex : Exchange) (side : Side) (amount price : ℚ) :
    (applyPositionStep ex side amount price).1.active_buy_orders
      = ex.active_buy_orders ∧
    (applyPositionStep ex side amount price).1.active_sell_orders
      = ex.active_sell_orders ∧
    (applyPositionStep ex side amount price).1.trade_history
      = ex.trade_history := by
  cases side <;> simp only [applyPositionStep] <;> split_ifs <;> simp

theorem execute_fast_trade_orders (ex : Exchange) (side : Side)
    (amount price : ℚ) (ts : Int) :
    (execute_fast_trade ex side amount price ts).active_buy_orders
      = ex.active_buy_orders ∧
    (execute_fast_trade ex side amount price ts).active_sell_orders
      = ex.active_sell_orders := by
  obtain ⟨-, -, -, -, hbo, hso, -, -, -, -, -, -, -, -⟩ :=
    applyFeeStep_core ex (amount * price * ex.maker_fee) ts
  obtain ⟨pbo, pso, -⟩ := applyPositionStep_core
    (applyFeeStep ex (amount * price * ex.maker_fee) ts) side amount price
  simp only [execute_fast_trade, update_current_leverage]
  constructor
  · simpa [pbo] using hbo
  · simpa [pso] using hso

theorem execute_fast_trade_history (ex : Exchange) (side : Side)
    (amount price : ℚ) (ts : Int) :
    (execute_fast_trade ex side amount price ts).trade_history.map tradeKey
      = ex.trade_history.map tradeKey ++ [(side, amount, price)] := by
  obtain ⟨-, -, -, -, -, -, hth, -, -, -, -, -, -, -⟩ :=
    applyFeeStep_core ex (amount * price * ex.maker_fee) ts
  obtain ⟨-, -, pth⟩ := applyPositionStep_core
    (applyFeeStep ex (amount * price * ex.maker_fee) ts) side amount price
  simp only [execute_fast_trade, update_current_leverage]
  simp [pth, hth, tradeKey]

theorem foldl_exec_orders (ts : Int) :
    ∀ (orders : List Order) (ex : Exchange),
    ((orders.foldl
        (fun s o => execute_fast_trade s o.side o.amount o.price ts) ex)
      ).active_buy_orders = ex.active_buy_orders ∧
    ((orders.foldl
        (fun s o => execute_fast_trade s o.side o.amount o.price ts) ex)
      ).active_sell_orders = ex.active_sell_orders
  | [], ex => ⟨rfl, rfl⟩
  | o :: rest, ex => by
      have h := execute_fast_trade_orders ex o.side o.amount o.price ts
      have ih := foldl_exec_orders ts rest
        (execute_fast_trade ex o.side o.amount o.price ts)
      exact ⟨by simp [List.foldl_cons, ih.1, h.1],
             by simp [List.foldl_cons, ih.2, h.2]⟩

theorem foldl_exec_history (ts : Int) :
    ∀ (orders : List Order) (ex : Exchange),
    ((orders.foldl
        (fun s o => execute_fast_trade s o.side o.amount o.price ts) ex)
      ).trade_history.map tradeKey
      = ex.trade_history.map tradeKey ++ orders.map orderKey
  | [], ex => by simp
  | o :: rest, ex => by
      have h := execute_fast_trade_history ex o.side o.amount o.price ts
      have ih := foldl_exec_history ts rest
        (execute_fast_trade ex o.side o.amount o.price ts)
      simp [List.foldl_cons, ih, h, orderKey]

/-- C7: in `fast_order_matching(high, low, ts)` a resting buy executes iff
`low ≤ price`, a resting sell iff `price ≤ high`; each matched order is
executed exactly once (in list order, buys then sells) and removed, every
unmatched order stays resting unchanged, and the fill counter counts the
matched orders. -/
theorem order_matching_spec (ex : Exchange) (high low : ℚ) (ts : Int) :
    (fast_order_matching ex high low ts).1.active_buy_orders
        = ex.active_buy_orders.filter (fun o => o.price < low) ∧
    (fast_order_matching ex high low ts).1.active_sell_orders
        = ex.active_sell_orders.filter (fun o => high < o.price) ∧
    (fast_order_matching ex high low ts).1.trade_history.map tradeKey
        = ex.trade_history.map tradeKey
          ++ (ex.active_buy_orders.filter (fun o => low ≤ o.price)).map orderKey
          ++ (ex.active_sell_orders.filter (fun o => o.price ≤ high)).map orderKey ∧
    (fast_order_matching ex high low ts).2
        = (ex.active_buy_orders.filter (fun o => low ≤ o.price)).length
          + (ex.active_sell_orders.filter (fun o => o.price ≤ high)).length := by
  obtain ⟨f1b, f1s⟩ := foldl_exec_orders ts
    (ex.active_buy_orders.filter (fun o => low ≤ o.price)) ex
  have f1h := foldl_exec_history ts
    (ex.active_buy_orders.filter (fun o => low ≤ o.price)) ex
  simp only [fast_order_matching]
  by_cases hB : ex.active_buy_orders = []
  · simp only [hB, List.isEmpty_nil, if_true]
    by_cases hS : ex.active_sell_orders = []
    · simp [hS, hB]
    · have hSne : ex.active_sell_orders.isEmpty = false := by
        simpa [List.isEmpty_iff] using hS
      obtain ⟨f2b, f2s⟩ := foldl_exec_orders ts
        (ex.active_sell_orders.filter (fun o => o.price ≤ high)) ex
      have f2h := foldl_exec_history ts
        (ex.active_sell_orders.filter (fun o => o.price ≤ high)) ex
      simp [hSne, hB, f2b, f2s, f2h]
  · have hBne : ex.active_buy_orders.isEmpty = false := by
      simpa [List.isEmpty_iff] using hB
    simp only [hBne, Bool.false_eq_true, if_false]
    by_cases hS : ex.active_sell_orders = []
    · simp [hS, f1s, f1b, f1h]
    · have hSne : ex.active_sell_orders.isEmpty = false := by
        simpa [List.isEmpty_iff] using hS
      obtain ⟨f2b, f2s⟩ := foldl_exec_orders ts
        (ex.active_sell_orders.filter (fun o => o.price ≤ high))
        { (ex.active_buy_orders.filter (fun o => low ≤ o.price)).foldl
            (fun s o => execute_fast_trade s o.side o.amount o.price ts) ex with
          active_buy_orders :=
            ex.active_buy_orders.filter (fun o => o.price < low) }
      have f2h := foldl_exec_history ts
        (ex.active_sell_orders.filter (fun o => o.price ≤ high))
        { (ex.active_buy_orders.filter (fun o => low ≤ o.price)).foldl
            (fun s o => execute_fast_trade s o.side o.amount o.price ts) ex with
          active_buy_orders :=
            ex.active_buy_orders.filter (fun o => o.price < low) }
      simp only [f1s] at f2b f2s f2h
      simp [hSne, f1s, f1b, f1h, f2b, f2s, f2h]

theorem pfr_long_position (e : Exchange) (ts : Int) :
    (process_fee_rebate e ts).long_position = e.long_position :=
  (process_fee_rebate_core e ts).2.1

theorem pfr_short_position (e : Exchange) (ts : Int) :
    (process_fee_rebate e ts).short_position = e.short_position :=
  (process_fee_rebate_core e ts).2.2.1

theorem pfr_long_entry (e : Exchange) (ts : Int) :
    (process_fee_rebate e ts).long_entry_price = e.long_entry_price :=
  (process_fee_rebate_core e ts).2.2.2.1

theorem pfr_short_entry (e : Exchange) (ts : Int) :
    (process_fee_rebate e ts).short_entry_price = e.short_entry_price :=
  (process_fee_rebate_core e ts).2.2.2.2.1

theorem pfr_buy_orders (e : Exchange) (ts : Int) :
    (process_fee_rebate e ts).active_buy_orders = e.active_buy_orders :=
  (process_fee_rebate_core e ts).2.2.2.2.2.2.2.2.1

theorem pfr_sell_orders (e : Exchange) (ts : Int) :
    (process_fee_rebate e ts).active_sell_orders = e.active_sell_orders :=
  (process_fee_rebate_core e ts).2.2.2.2.2.2.2.2.2.1

theorem pfr_liq_events (e : Exchange) (ts : Int) :
    (process_fee_rebate e ts).liquidation_events = e.liquidation_events :=
  (process_fee_rebate_core e ts).2.2.2.2.2.2.2.2.2.2.2.2.1

theorem pfr_fees_paid (e : Exchange) (ts : Int) :
    (process_fee_rebate e ts).total_fees_paid = e.total_fees_paid :=
  (process_fee_rebate_core e ts).2.2.2.2.2.2.2.2.2.2.2.2.2.2.1

theorem pfr_taker_fee (e : Exchange) (ts : Int) :
    (process_fee_rebate e ts).taker_fee = e.taker_fee :=
  (process_fee_rebate_core e ts).2.2.2.2.2.2.2.2.2.2.2.2.2.2.2.2.2.2.2

/-- What the long-side force-close block does to the fields the liquidation
claim talks about. -/
theorem liquidateLongStep_core (ex : Exchange) (p : ℚ) (ts : Int) :
    (liquidateLongStep ex p ts).long_position
      = (if 0 < ex.long_position then 0 else ex.long_position) ∧
    (liquidateLongStep ex p ts).long_entry_price
      = (if 0 < ex.long_position then 0 else ex.long_entry_price) ∧
    (liquidateLongStep ex p ts).short_position = ex.short_position ∧
    (liquidateLongStep ex p ts).short_entry_price = ex.short_entry_price ∧
    (liquidateLongStep ex p ts).active_buy_orders = ex.active_buy_orders ∧
    (liquidateLongStep ex p ts).active_sell_orders = ex.active_sell_orders ∧
    (liquidateLongStep ex p ts).liquidation_events = ex.liquidation_events ∧
    (liquidateLongStep ex p ts).taker_fee = ex.taker_fee ∧
    (liquidateLongStep ex p ts).total_fees_paid
      = ex.total_fees_paid
        + (if 0 < ex.long_position
           then ex.long_position * p * ex.taker_fee else 0) := by
  simp only [liquidateLongStep]
  split_ifs with h hreb <;>
    simp [h, pfr_long_position, pfr_short_position, pfr_long_entry,
      pfr_short_entry, pfr_buy_orders, pfr_sell_orders, pfr_liq_events,
      pfr_fees_paid, pfr_taker_fee]

/-- What the short-side force-close block does to the fields the liquidation
claim talks about. -/
theorem liquidateShortStep_core (ex : Exchange) (p : ℚ) (ts : Int) :
    (liquidateShortStep ex p ts).short_position
      = (if 0 < ex.short_position then 0 else ex.short_position) ∧
    (liquidateShortStep ex p ts).short_entry_price
      = (if 0 < ex.short_position then 0 else ex.short_entry_price) ∧
    (liquidateShortStep ex p ts).long_position = ex.long_position ∧
    (liquidateShortStep ex p ts).long_entry_price = ex.long_entry_price ∧
    (liquidateShortStep ex p ts).active_buy_orders = ex.active_buy_orders ∧
    (liquidateShortStep ex p ts).active_sell_orders = ex.active_sell_orders ∧
    (liquidateShortStep ex p ts).liquidation_events = ex.liquidation_events ∧
    (liquidateShortStep ex p ts).taker_fee = ex.taker_fee ∧
    (liquidateShortStep ex p ts).total_fees_paid
      = ex.total_fees_paid
        + (if 0 < ex.short_position
           then ex.short_position * p * ex.taker_fee else 0) := by
  simp only [liquidateShortStep]
  split_ifs with h hreb <;>
    simp [h, pfr_long_position, pfr_short_position, pfr_long_entry,
      pfr_short_entry, pfr_buy_orders, pfr_sell_orders, pfr_liq_events,
      pfr_fees_paid, pfr_taker_fee]



/-- C1: `check_and_handle_liquidation` returns true iff some position is
open and `0 < equity ≤ maintenanceMargin`; on true it force-closes both
positions at the mark price with the taker fee, appends exactly one
liquidation event `(ts, equity, price)`, clears all resting orders and
zeroes the balance; on false the state is unchanged. The entry-price
hypotheses are the data-model invariant (entry is 0 when the quantity
is 0). -/
theorem liquidation_spec (ex : Exchange) (ts : Int)
    (hl : 0 ≤ ex.long_position) (hs : 0 ≤ ex.short_position)
    (hle : ex.long_position = 0 → ex.long_entry_price = 0)
    (hse : ex.short_position = 0 → ex.short_entry_price = 0) :
    ((check_and_handle_liquidation ex ts).2 = true ↔
      (¬(ex.long_position = 0 ∧ ex.short_position = 0)
        ∧ 0 < get_equity ex ∧ get_equity ex ≤ get_maintenance_margin ex)) ∧
    ((check_and_handle_liquidation ex ts).2 = true →
      ((check_and_handle_liquidation ex ts).1.long_position = 0 ∧
       (check_and_handle_liquidation ex ts).1.short_position = 0 ∧
       (check_and_handle_liquidation ex ts).1.long_entry_price = 0 ∧
       (check_and_handle_liquidation ex ts).1.short_entry_price = 0 ∧
       (check_and_handle_liquidation ex ts).1.balance = 0 ∧
       (check_and_handle_liquidation ex ts).1.active_buy_orders = [] ∧
       (check_and_handle_liquidation ex ts).1.active_sell_orders = [] ∧
       (check_and_handle_liquidation ex ts).1.liquidation_events
         = ex.liquidation_events
           ++ [LiquidationEvent.mk ts (get_equity ex) ex.current_price] ∧
       (check_and_handle_liquidation ex ts).1.total_fees_paid
         = ex.total_fees_paid
           + (if 0 < ex.long_position
              then ex.long_position * ex.current_price * ex.taker_fee else 0)
           + (if 0 < ex.short_position
              then ex.short_position * ex.current_price * ex.taker_fee else 0))) ∧
    ((check_and_handle_liquidation ex ts).2 = false →
      (check_and_handle_liquidation ex ts).1 = ex) := by
  simp only [check_and_handle_liquidation]
  by_cases h1 : ex.long_position = 0 ∧ ex.short_position = 0
  · rw [if_pos h1]
    exact ⟨by simp [h1], fun hc => absurd hc (by simp), fun _ => rfl⟩
  · rw [if_neg h1]
    by_cases h2 : get_equity ex ≤ get_maintenance_margin ex ∧ 0 < get_equity ex
    · rw [if_pos h2]
      obtain ⟨L1, L2, L3, L4, L5, L6, L7, L8, L9⟩ := liquidateLongStep_core
        { ex with
          liquidation_events := ex.liquidation_events
            ++ [LiquidationEvent.mk ts (get_equity ex) ex.current_price],
          active_buy_orders := [],
          active_sell_orders := [] } ex.current_price ts
      obtain ⟨S1, S2, S3, S4, S5, S6, S7, S8, S9⟩ := liquidateShortStep_core
        (liquidateLongStep
          { ex with
            liquidation_events := ex.liquidation_events
              ++ [LiquidationEvent.mk ts (get_equity ex) ex.current_price],
            active_buy_orders := [],
            active_sell_orders := [] } ex.current_price ts) ex.current_price ts
      refine ⟨by simp [h1, h2.1, h2.2], fun _ => ?_, fun hc => absurd hc (by simp)⟩
      refine ⟨?_, ?_, ?_, ?_, rfl, ?_, ?_, ?_, ?_⟩
      · show (liquidateShortStep _ _ _).long_position = 0
        rw [S3, L1]
        by_cases hp : 0 < ex.long_position
        · rw [if_pos hp]
        · rw [if_neg hp]
          exact le_antisymm (not_lt.1 hp) hl
      · show (liquidateShortStep _ _ _).short_position = 0
        rw [S1, L3]
        by_cases hp : 0 < ex.short_position
        · rw [if_pos hp]
        · rw [if_neg hp]
          exact le_antisymm (not_lt.1 hp) hs
      · show (liquidateShortStep _ _ _).long_entry_price = 0
        rw [S4, L2]
        by_cases hp : 0 < ex.long_position
        · rw [if_pos hp]
        · rw [if_neg hp]
          exact hle (le_antisymm (not_lt.1 hp) hl)
      · show (liquidateShortStep _ _ _).short_entry_price = 0
        rw [S2, L3, L4]
        by_cases hp : 0 < ex.short_position
        · rw [if_pos hp]
        · rw [if_neg hp]
          exact hse (le_antisymm (not_lt.1 hp) hs)
      · show (liquidateShortStep _ _ _).active_buy_orders = []
        rw [S5, L5]
      · show (liquidateShortStep _ _ _).active_sell_orders = []
        rw [S6, L6]
      · show (liquidateShortStep _ _ _).liquidation_events = _
        rw [S7, L7]
      · show (liquidateShortStep _ _ _).total_fees_paid = _
        rw [S9, L9, L3, L8]
    · rw [if_neg h2]
      refine ⟨?_, fun hc => absurd hc (by simp), fun _ => rfl⟩
      constructor
      · intro hc
        exact absurd hc (by simp)
      · intro hc
        exact absurd (And.intro hc.2.2 hc.2.1) h2


/-- C1 witness: the concrete liquidation-zone state (equity 0.2, maintenance
margin 0.4) trips the liquidation and ends with balance exactly 0. -/
theorem liquidation_spec_witness :
    (check_and_handle_liquidation liquidationZoneState 5).2 = true ∧
    (check_and_handle_liquidation liquidationZoneState 5).1.balance = 0 := by
  have h := liquidation_spec liquidationZoneState 5
    (by norm_num [liquidationZoneState, initialExchange])
    (by norm_num [liquidationZoneState, initialExchange])
    (by norm_num [liquidationZoneState, initialExchange])
    (by norm_num [liquidationZoneState, initialExchange])
  have ht : (check_and_handle_liquidation liquidationZoneState 5).2 = true := by
    rw [h.1]
    refine ⟨by norm_num [liquidationZoneState, initialExchange], ?_, ?_⟩
    · norm_num [get_equity, get_unrealized_pnl, liquidationZoneState,
        initialExchange]
    · norm_num [get_equity, get_unrealized_pnl, get_maintenance_margin,
        get_net_position_value, get_net_position, mmScan, ETH_USDC_TIERS,
        Tier.coversNotional, liquidationZoneState, initialExchange]
  exact ⟨ht, (h.2.1 ht).2.2.2.2.1⟩

/-- C9: with the fee rebate enabled and a representable timestamp
(`ts ≤ 2^31−1`, and a payout day valid in every month), the first call only
anchors the payout cycle — to the prior month's payout date when the current
date precedes this month's payout day, else to this month's — crediting
nothing; a later call at or past anchor + 1 month credits
`current_cycle_fees × rebate_rate` to the balance, resets the cycle fees to
0 and advances the anchor by exactly one month; a call before that date
changes nothing. -/
theorem fee_rebate_spec (ex : Exchange) (ts : Int)
    (hon : ex.use_fee_rebate = true) (hts : ts ≤ 2147483647)
    (hd1 : 1 ≤ ex.rebate_payout_day) (hd2 : ex.rebate_payout_day ≤ 28)
    (hfees : 0 ≤ ex.current_cycle_fees) (hrate : 0 < ex.rebate_rate) :
    (ex.last_payout_date = none →
      process_fee_rebate ex ts =
        { ex with last_payout_date := some (
            if (tsToDateTime ts).toEpoch
                < (replaceDayMidnight (tsToDateTime ts)
                    ex.rebate_payout_day).toEpoch
            then subOneMonth
              (replaceDayMidnight (tsToDateTime ts) ex.rebate_payout_day)
            else replaceDayMidnight (tsToDateTime ts) ex.rebate_payout_day) }) ∧
    (∀ a, ex.last_payout_date = some a →
      ((addOneMonth a).toEpoch ≤ (tsToDateTime ts).toEpoch →
        process_fee_rebate ex ts =
          { ex with
            balance := ex.balance + ex.current_cycle_fees * ex.rebate_rate,
            current_cycle_fees := 0,
            last_payout_date := some (addOneMonth a) }) ∧
      ((tsToDateTime ts).toEpoch < (addOneMonth a).toEpoch →
        process_fee_rebate ex ts = ex)) := by
  have hguard : ¬ 2147483647 < ts := not_lt.2 hts
  constructor
  · intro hnone
    simp only [process_fee_rebate, hon, hnone]
    rw [if_neg (by simp), if_neg hguard]
    split_ifs with hcmp <;> rfl
  · intro a ha
    constructor
    · intro hcross
      simp only [process_fee_rebate, hon, ha]
      rw [if_neg (by simp), if_neg hguard, if_pos hcross]
      by_cases hf : 0 < ex.current_cycle_fees * ex.rebate_rate
      · rw [if_pos hf]
      · rw [if_neg hf]
        have h0 : ex.current_cycle_fees = 0 := by
          rcases lt_or_eq_of_le hfees with h | h
          · exact absurd (mul_pos h hrate) hf
          · exact h.symm
        simp [h0]
    · intro hlt
      simp only [process_fee_rebate, hon, ha]
      rw [if_neg (by simp), if_neg hguard, if_neg (not_le.2 hlt)]

/-- C9 witness: the rebate-enabled state anchored at 2021-01-19 with 100 of
cycle fees, called at 2021-03-01 (past 2021-02-19), credits 100 × 0.30 and
advances the anchor. -/
theorem fee_rebate_spec_witness :
    process_fee_rebate rebateCrossingState 1614556800 =
      { rebateCrossingState with
        balance := rebateCrossingState.balance
          + rebateCrossingState.current_cycle_fees
            * rebateCrossingState.rebate_rate,
        current_cycle_fees := 0,
        last_payout_date :=
          some (addOneMonth (DateTime.mk 2021 1 19 0 0 0)) } := by
  have h := fee_rebate_spec rebateCrossingState 1614556800 rfl
    (by norm_num)
    (by norm_num [rebateCrossingState, initialExchange])
    (by norm_num [rebateCrossingState, initialExchange])
    (by norm_num [rebateCrossingState, initialExchange])
    (by norm_num [rebateCrossingState, initialExchange])
  exact (h.2 (DateTime.mk 2021 1 19 0 0 0) rfl).1 (by decide)

end Backtest
